import Mathlib

/-!
Shallow embedding of the vm_daemon_sys control plane
(`service_manager.py`, `load_balancer.py`, `health_monitor.py`,
`orchestrator.py`) and proofs of the spec's testable properties.

Python dicts are modelled as insertion-ordered association lists
(`List (String × α)` with replace-in-place assignment), Python floats as
exact rationals (ℚ), Python ints as ℤ or ℕ as the operations demand.
-/

namespace VmDaemon

/-- `d.get(k)` / `k in d` for a Python dict modelled as an ordered assoc list. -/
def alookup {α : Type} : List (String × α) → String → Option α
  | [], _ => none
  | (k', v) :: t, k => if k' = k then some v else alookup t k

/-- `d[k] = v` on a Python dict: replaces the value in place if the key is
present (insertion order is preserved), otherwise appends the new binding. -/
def aset {α : Type} : List (String × α) → String → α → List (String × α)
  | [], k, v => [(k, v)]
  | (k', v') :: t, k, v =>
      if k' = k then (k', v) :: t else (k', v') :: aset t k v

theorem alookup_aset_self {α : Type} (l : List (String × α)) (k : String) (v : α) :
    alookup (aset l k v) k = some v := by
  induction l with
  | nil => simp [aset, alookup]
  | cons h t ih =>
      obtain ⟨k', v'⟩ := h
      by_cases hk : k' = k <;> simp [aset, alookup, hk, ih]

theorem alookup_aset_ne {α : Type} (l : List (String × α)) (k k₀ : String) (v : α)
    (h : k ≠ k₀) : alookup (aset l k v) k₀ = alookup l k₀ := by
  induction l with
  | nil => simp [aset, alookup, h]
  | cons hd t ih =>
      obtain ⟨k', v'⟩ := hd
      by_cases hk : k' = k
      · subst hk; simp [aset, alookup, h]
      · simp [aset, alookup, hk, ih]

/-! ## service_manager.py -/

/-- `ServiceType` — the closed set of cognitive service categories. -/
inductive ServiceType where
  | relevance | wisdom | rationality | phenomenology
  | meaning_making | integration | silicon_sage
  deriving DecidableEq, Repr

/-- `ServiceType.value` — the string payload of each enum member. -/
def ServiceType.value : ServiceType → String
  | .relevance => "relevance"
  | .wisdom => "wisdom"
  | .rationality => "rationality"
  | .phenomenology => "phenomenology"
  | .meaning_making => "meaning_making"
  | .integration => "integration"
  | .silicon_sage => "silicon_sage"

/-- `ServiceStatus` — lifecycle states. -/
inductive ServiceStatus where
  | stopped | starting | running | stopping | error | maintenance
  deriving DecidableEq, Repr

/-- `ServiceConfig` dataclass (the `environment` dict maps names to values). -/
structure ServiceConfig where
  service_type : ServiceType
  instance_id : String
  port : Nat := 8080
  host : String := "localhost"
  workers : Nat := 1
  memory_limit : Nat := 1024
  cpu_limit : ℚ := 1
  environment : List (String × String) := []
  dependencies : List ServiceType := []
  auto_restart : Bool := true
  health_check_interval : Nat := 30
  startup_timeout : Nat := 60
  shutdown_timeout : Nat := 30
  deriving DecidableEq, Repr

/-- `ServiceInstance` dataclass: config plus mutable runtime state.
Timestamps are abstract rationals; the `metrics` dict holds numeric values. -/
structure ServiceInstance where
  config : ServiceConfig
  status : ServiceStatus := .stopped
  process_id : Option Int := none
  start_time : Option ℚ := none
  last_health_check : Option ℚ := none
  health_status : String := "unknown"
  error_count : Nat := 0
  restart_count : Nat := 0
  metrics : List (String × ℚ) := []
  deriving DecidableEq, Repr

/-- The mutable state of a `ServiceManager`: the `services` dict and the
per-category `service_registry` lists (total over the closed enum, each
category starting from `[]`). Locks, threads and callbacks carry no state
that the embedded operations read; status-change notifications are returned
as an explicit event list instead. -/
structure ServiceManagerState where
  services : List (String × ServiceInstance) := []
  service_registry : ServiceType → List String := fun _ => []

/-- `ServiceManager.register_service`. -/
def register_service (st : ServiceManagerState) (config : ServiceConfig) :
    String × ServiceManagerState :=
  let inst : ServiceInstance := { config := config }
  let instance_id := config.instance_id
  ⟨instance_id,
   { st with
      services := aset st.services instance_id inst
      service_registry := fun t =>
        if t = config.service_type then st.service_registry t ++ [instance_id]
        else st.service_registry t }⟩

/-- `ServiceManager.get_services_by_type`. -/
def get_services_by_type (st : ServiceManagerState) (service_type : ServiceType) :
    List ServiceInstance :=
  (st.service_registry service_type).filterMap (fun instance_id => alookup st.services instance_id)

/-- `ServiceManager.get_healthy_services`. -/
def get_healthy_services (st : ServiceManagerState) (service_type : ServiceType) :
    List ServiceInstance :=
  (get_services_by_type st service_type).filter
    (fun s => s.status = ServiceStatus.running ∧ s.health_status = "healthy")

/-- `ServiceManager._check_dependencies`. -/
def check_dependencies (st : ServiceManagerState) (config : ServiceConfig) : Bool :=
  config.dependencies.all (fun dep_type => ¬ (get_healthy_services st dep_type).isEmpty)

/-- `ServiceManager._start_service_process`: simulated start, records a fake
process id derived from a hash of the identifier (the hash function is a
parameter, as Python's `hash` is run-dependent) and reports success. -/
def start_service_process (pyhash : String → Nat) (inst : ServiceInstance) :
    ServiceInstance × Bool :=
  ⟨{ inst with process_id := some (12345 + (pyhash inst.config.instance_id) % 10000) },
   true⟩

/-- `ServiceManager.start_service`.  Returns the success flag, the new state,
and the `(instance_id, status)` notifications delivered to callbacks, in
order.  `now` stands for `datetime.now()`. -/
def start_service (pyhash : String → Nat) (now : ℚ) (st : ServiceManagerState)
    (instance_id : String) :
    Bool × ServiceManagerState × List (String × ServiceStatus) :=
  match alookup st.services instance_id with
  | none => (false, st, [])
  | some inst =>
    if inst.status ≠ ServiceStatus.stopped then (false, st, [])
    else if ¬ check_dependencies st inst.config then (false, st, [])
    else
      let inst₁ := { inst with status := ServiceStatus.starting, start_time := some now }
      let ev₁ := [(instance_id, ServiceStatus.starting)]
      let (inst₂, success) := start_service_process pyhash inst₁
      let inst₃ :=
        if success then { inst₂ with status := ServiceStatus.running }
        else { inst₂ with status := ServiceStatus.error, error_count := inst₂.error_count + 1 }
      (success,
       { st with services := aset st.services instance_id inst₃ },
       ev₁ ++ [(instance_id, inst₃.status)])

/-! ## load_balancer.py -/

/-- `LoadBalancingStrategy` enum. -/
inductive LoadBalancingStrategy where
  | round_robin | weighted_round_robin | least_connections
  | least_response_time | cognitive_aware
  deriving DecidableEq, Repr

/-- `ServiceMetrics` dataclass.  `current_connections` and `total_requests`
are Python ints (ℤ); the rest are floats (ℚ). -/
structure ServiceMetrics where
  instance_id : String
  current_connections : Int := 0
  total_requests : Int := 0
  average_response_time : ℚ := 0
  cpu_usage : ℚ := 0
  memory_usage : ℚ := 0
  cognitive_load : ℚ := 0
  error_rate : ℚ := 0
  last_updated : ℚ := 0
  deriving DecidableEq, Repr

/-- Mutable state of a `LoadBalancer` (the lock carries no data). -/
structure LoadBalancerState where
  strategy : LoadBalancingStrategy := .round_robin
  metrics : List (String × ServiceMetrics) := []
  round_robin_counters : ServiceType → Nat := fun _ => 0
  weights : List (String × ℚ) := []

/-- Strict `<` where `none` stands for `float('inf')`, matching the
comparisons against an infinite initial minimum in the selection loops. -/
def lt_inf {α : Type} [LinearOrder α] : Option α → Option α → Bool
  | some a, some b => decide (a < b)
  | some _, none => true
  | none, _ => false

/-- Python `int(·)` on a float: truncation toward zero. -/
def pytrunc (q : ℚ) : Int := if 0 ≤ q then ⌊q⌋ else -⌊-q⌋

/-- `LoadBalancer.record_request_start`. -/
def record_request_start (lb : LoadBalancerState) (instance_id : String) :
    LoadBalancerState :=
  let m := (alookup lb.metrics instance_id).getD { instance_id := instance_id }
  { lb with
      metrics := aset lb.metrics instance_id
        { m with current_connections := m.current_connections + 1 } }

/-- The per-entry update performed by `LoadBalancer.record_request_end`
(connection release, request count, EMA smoothing with α = 0.1). -/
def record_request_end_metrics (m : ServiceMetrics) (response_time : ℚ)
    (success : Bool) : ServiceMetrics :=
  let alpha : ℚ := 1/10
  { m with
      current_connections := max 0 (m.current_connections - 1)
      total_requests := m.total_requests + 1
      average_response_time := alpha * response_time + (1 - alpha) * m.average_response_time
      error_rate :=
        if ¬ success then alpha * 1 + (1 - alpha) * m.error_rate
        else (1 - alpha) * m.error_rate }

/-- `LoadBalancer.record_request_end`: returns unchanged when the identifier
has no metrics entry. -/
def record_request_end (lb : LoadBalancerState) (instance_id : String)
    (response_time : ℚ) (success : Bool) : LoadBalancerState :=
  match alookup lb.metrics instance_id with
  | none => lb
  | some m =>
      { lb with
          metrics := aset lb.metrics instance_id
            (record_request_end_metrics m response_time success) }

/-- The payload of `LoadBalancer.update_service_metrics`, with the defaults
that `metrics.get(key, default)` supplies for absent keys. -/
structure MetricsPayload where
  connections : Int := 0
  total_requests : Int := 0
  avg_response_time : ℚ := 0
  cpu_usage : ℚ := 0
  memory_usage : ℚ := 0
  cognitive_load : ℚ := 0
  error_rate : ℚ := 0
  deriving DecidableEq, Repr

/-- `LoadBalancer.update_service_metrics` (`current_time` abstracts
`time.time()`). -/
def update_service_metrics (lb : LoadBalancerState) (instance_id : String)
    (payload : MetricsPayload) (current_time : ℚ) : LoadBalancerState :=
  let m := (alookup lb.metrics instance_id).getD { instance_id := instance_id }
  { lb with
      metrics := aset lb.metrics instance_id
        { m with
            current_connections := payload.connections
            total_requests := payload.total_requests
            average_response_time := payload.avg_response_time
            cpu_usage := payload.cpu_usage
            memory_usage := payload.memory_usage
            cognitive_load := payload.cognitive_load
            error_rate := payload.error_rate
            last_updated := current_time } }

/-- `LoadBalancer._round_robin_select`: also returns the updated counter
table.  (On the empty list Python would divide by zero; the embedding yields
`none`, and the caller only passes lists of length ≥ 2.) -/
def round_robin_select (counters : ServiceType → Nat) (service_type : ServiceType)
    (instances : List ServiceInstance) : Option String × (ServiceType → Nat) :=
  let counter := counters service_type
  let selected := instances[counter % instances.length]?
  ⟨selected.map (·.config.instance_id),
   fun t => if t = service_type then (counter + 1) % instances.length else counters t⟩

/-- `LoadBalancer._weighted_round_robin_select`. -/
def weighted_round_robin_select (weights : List (String × ℚ))
    (counters : ServiceType → Nat) (service_type : ServiceType)
    (instances : List ServiceInstance) : Option String × (ServiceType → Nat) :=
  let weighted_instances := instances.flatMap (fun inst =>
    let weight := (alookup weights inst.config.instance_id).getD 1
    let count := (max 1 (pytrunc (weight * 10))).toNat
    List.replicate count inst)
  if weighted_instances.isEmpty then
    ⟨(instances.head?).map (·.config.instance_id), counters⟩
  else
    let counter := counters service_type
    let selected := weighted_instances[counter % weighted_instances.length]?
    ⟨selected.map (·.config.instance_id),
     fun t => if t = service_type then (counter + 1) % weighted_instances.length
              else counters t⟩

/-- `LoadBalancer._least_connections_select` (absent metrics count as 0
connections; ties keep the earlier instance). -/
def least_connections_select (ms : List (String × ServiceMetrics))
    (instances : List ServiceInstance) : Option String :=
  let best := instances.foldl
    (fun (acc : Option ServiceInstance × Option Int) inst =>
      let connections : Int :=
        match alookup ms inst.config.instance_id with
        | some m => m.current_connections
        | none => 0
      if lt_inf (some connections) acc.2 then (some inst, some connections) else acc)
    (none, none)
  match best.1 with
  | some b => some b.config.instance_id
  | none => (instances.head?).map (·.config.instance_id)

/-- The comparison value used per instance by
`LoadBalancer._least_response_time_select`: `none` (infinity) when the
identifier has no metrics entry, the 100 ms default when the smoothed
average is still the zero seed, and the smoothed average otherwise. -/
def effective_response_time (ms : List (String × ServiceMetrics))
    (instance_id : String) : Option ℚ :=
  match alookup ms instance_id with
  | none => none
  | some m => some (if m.average_response_time = 0 then 100 else m.average_response_time)

/-- `LoadBalancer._least_response_time_select`. -/
def least_response_time_select (ms : List (String × ServiceMetrics))
    (instances : List ServiceInstance) : Option String :=
  let best := instances.foldl
    (fun (acc : Option ServiceInstance × Option ℚ) inst =>
      let rt := effective_response_time ms inst.config.instance_id
      if lt_inf rt acc.2 then (some inst, rt) else acc)
    (none, none)
  match best.1 with
  | some b => some b.config.instance_id
  | none => (instances.head?).map (·.config.instance_id)

/-- `LoadBalancer._cognitive_aware_select` (request context modelled by its
only read key, `complexity`). -/
def cognitive_aware_select (ms : List (String × ServiceMetrics))
    (instances : List ServiceInstance)
    (request_context : Option (List (String × ℚ))) : Option String :=
  let request_complexity : ℚ :=
    match request_context with
    | none => 1
    | some ctx => (alookup ctx "complexity").getD 1
  let best := instances.foldl
    (fun (acc : Option ServiceInstance × Option ℚ) inst =>
      let score : ℚ :=
        match alookup ms inst.config.instance_id with
        | none => request_complexity
        | some m =>
            (3/10 * ((m.current_connections : ℚ) / 10) +
             3/10 * (m.average_response_time / 1000) +
             2/10 * m.cognitive_load +
             2/10 * (m.error_rate * 10)) * request_complexity
      if lt_inf (some score) acc.2 then (some inst, some score) else acc)
    (none, none)
  match best.1 with
  | some b => some b.config.instance_id
  | none => (instances.head?).map (·.config.instance_id)

/-- `LoadBalancer.select_service_instance`: queries the registry for healthy
instances, short-circuits the empty and singleton cases, then dispatches on
the configured strategy. -/
def select_service_instance (lb : LoadBalancerState) (sm : ServiceManagerState)
    (service_type : ServiceType)
    (request_context : Option (List (String × ℚ)) := none) :
    Option String × LoadBalancerState :=
  let healthy_instances := get_healthy_services sm service_type
  if healthy_instances.isEmpty then (none, lb)
  else if healthy_instances.length = 1 then
    ((healthy_instances.head?).map (·.config.instance_id), lb)
  else
    match lb.strategy with
    | .round_robin =>
        let (sel, counters) :=
          round_robin_select lb.round_robin_counters service_type healthy_instances
        (sel, { lb with round_robin_counters := counters })
    | .weighted_round_robin =>
        let (sel, counters) :=
          weighted_round_robin_select lb.weights lb.round_robin_counters
            service_type healthy_instances
        (sel, { lb with round_robin_counters := counters })
    | .least_connections => (least_connections_select lb.metrics healthy_instances, lb)
    | .least_response_time => (least_response_time_select lb.metrics healthy_instances, lb)
    | .cognitive_aware =>
        (cognitive_aware_select lb.metrics healthy_instances request_context, lb)

/-! ## health_monitor.py -/

/-- `HealthStatus` enum. -/
inductive HealthStatus where
  | healthy | warning | critical | unknown
  deriving DecidableEq, Repr

/-- `HealthMetric` dataclass. -/
structure HealthMetric where
  name : String
  value : ℚ
  threshold_warning : ℚ
  threshold_critical : ℚ
  unit : String := ""
  description : String := ""
  deriving DecidableEq, Repr

/-- `HealthReport` dataclass (the timestamp is an abstract rational). -/
structure HealthReport where
  status : HealthStatus
  metrics : List HealthMetric := []
  issues : List String := []
  recommendations : List String := []
  timestamp : ℚ := 0
  deriving DecidableEq, Repr

/-- The `HealthMonitor.thresholds` table, one `(warning, critical)` pair per
metric name, with the constructor's default values. -/
structure Thresholds where
  cpu_usage : ℚ × ℚ := (70, 90)
  memory_usage : ℚ × ℚ := (80, 95)
  response_time : ℚ × ℚ := (1000, 5000)
  error_rate : ℚ × ℚ := (1/20, 1/10)
  connection_count : ℚ × ℚ := (100, 200)
  cognitive_load : ℚ × ℚ := (8/10, 19/20)
  deriving DecidableEq, Repr

/-- `HealthMonitor._evaluate_metric_status`. -/
def evaluate_metric_status (metric : HealthMetric) : HealthStatus :=
  if metric.value ≥ metric.threshold_critical then .critical
  else if metric.value ≥ metric.threshold_warning then .warning
  else .healthy

/-- The metrics snapshot `_check_service_health` reads, with the defaults its
`service_metrics.get(key, 0)` calls supply. -/
structure MetricsSnapshot where
  cpu_usage : ℚ := 0
  memory_usage : ℚ := 0
  avg_response_time : ℚ := 0
  error_rate : ℚ := 0
  cognitive_load : ℚ := 0
  deriving DecidableEq, Repr

/-- Accumulator of `_check_service_health`: collected metrics, issues,
recommendations, and the running worst-of status. -/
structure HealthCheckAcc where
  metrics : List HealthMetric := []
  issues : List String := []
  recommendations : List String := []
  overall_status : HealthStatus := .healthy
  deriving DecidableEq, Repr

/-- One metric block of `_check_service_health`: append the metric, evaluate
it, and escalate the overall status (`critical` wins; `warning` only when the
overall status is not already `critical`), recording the corresponding issue
and recommendation strings.  (The numeric interpolation inside the Python
issue strings is elided; the branch structure is unchanged.) -/
def health_check_step (acc : HealthCheckAcc)
    (item : HealthMetric × String × String × String) : HealthCheckAcc :=
  let (metric, critical_issue, warning_issue, recommendation) := item
  let acc := { acc with metrics := acc.metrics ++ [metric] }
  let status := evaluate_metric_status metric
  if status = .critical then
    { acc with
        overall_status := .critical
        issues := acc.issues ++ [critical_issue]
        recommendations := acc.recommendations ++ [recommendation] }
  else if status = .warning ∧ acc.overall_status ≠ .critical then
    { acc with
        overall_status := .warning
        issues := acc.issues ++ [warning_issue] }
  else acc

/-- The five metric blocks checked by `_check_service_health`, in source
order, with their issue and recommendation texts. -/
def health_checks (th : Thresholds) (s : MetricsSnapshot) :
    List (HealthMetric × String × String × String) :=
  [⟨{ name := "cpu_usage", value := s.cpu_usage,
      threshold_warning := th.cpu_usage.1, threshold_critical := th.cpu_usage.2,
      unit := "%", description := "CPU utilization" },
    "High CPU usage", "Elevated CPU usage",
    "Consider scaling up or optimizing CPU-intensive operations"⟩,
   ⟨{ name := "memory_usage", value := s.memory_usage,
      threshold_warning := th.memory_usage.1, threshold_critical := th.memory_usage.2,
      unit := "%", description := "Memory utilization" },
    "High memory usage", "Elevated memory usage",
    "Consider increasing memory allocation or optimizing memory usage"⟩,
   ⟨{ name := "response_time", value := s.avg_response_time,
      threshold_warning := th.response_time.1, threshold_critical := th.response_time.2,
      unit := "ms", description := "Average response time" },
    "High response time", "Elevated response time",
    "Investigate performance bottlenecks or scale horizontally"⟩,
   ⟨{ name := "error_rate", value := s.error_rate,
      threshold_warning := th.error_rate.1, threshold_critical := th.error_rate.2,
      unit := "%", description := "Error rate" },
    "High error rate", "Elevated error rate",
    "Investigate error causes and implement fixes"⟩,
   ⟨{ name := "cognitive_load", value := s.cognitive_load,
      threshold_warning := th.cognitive_load.1, threshold_critical := th.cognitive_load.2,
      unit := "", description := "Cognitive processing load" },
    "High cognitive load", "Elevated cognitive load",
    "Reduce cognitive complexity or add more processing capacity"⟩]

/-- `HealthMonitor._check_service_health` on a metrics snapshot.  (The
`except` arm that classifies a *failed* metrics fetch as UNKNOWN is
unreachable here: the snapshot is already given.) -/
def check_service_health (th : Thresholds) (s : MetricsSnapshot) : HealthReport :=
  let acc := (health_checks th s).foldl health_check_step {}
  { status := acc.overall_status
    metrics := acc.metrics
    issues := acc.issues
    recommendations := acc.recommendations }

/-- `HealthMonitor._update_system_health`, as a function of the cached
per-instance reports (`self.service_reports.values()`), returning the new
system report. -/
def update_system_health (service_reports : List HealthReport) : HealthReport :=
  if service_reports.isEmpty then { status := HealthStatus.unknown }
  else
    let total_services := service_reports.length
    let count := fun (st : HealthStatus) =>
      service_reports.countP (fun r => r.status = st)
    let overall_status :=
      if count .critical > 0 then HealthStatus.critical
      else if count .warning > 0 then HealthStatus.warning
      else if count .unknown = total_services then HealthStatus.unknown
      else HealthStatus.healthy
    let system_metrics : List HealthMetric :=
      [{ name := "services_healthy", value := (count .healthy : ℚ),
         threshold_warning := (total_services : ℚ) * (8/10),
         threshold_critical := (total_services : ℚ) * (6/10),
         unit := "count", description := "Number of healthy services" },
       { name := "services_warning", value := (count .warning : ℚ),
         threshold_warning := (total_services : ℚ) * (2/10),
         threshold_critical := (total_services : ℚ) * (4/10),
         unit := "count", description := "Number of services with warnings" },
       { name := "services_critical", value := (count .critical : ℚ),
         threshold_warning := 1,
         threshold_critical := (total_services : ℚ) * (3/10),
         unit := "count", description := "Number of critical services" }]
    let issues :=
      (if count .critical > 0 then ["services in critical state"] else []) ++
      (if count .warning > 0 then ["services with warnings"] else [])
    let recommendations :=
      (if count .critical > 0 then ["Immediately investigate critical services"] else []) ++
      (if count .warning > 0 then ["Monitor warning services closely"] else [])
    { status := overall_status
      metrics := system_metrics
      issues := issues
      recommendations := recommendations }

/-! ## orchestrator.py -/

/-- A Python result mapping with numeric values (`dict.update` merge below). -/
def RMap : Type := List (String × ℚ)

/-- `dict.update`: every binding of `upd` is assigned into `base` in order
(existing keys are overwritten in place, new keys appended). -/
def dict_update (base upd : RMap) : RMap :=
  upd.foldl (fun b kv => aset b kv.1 kv.2) base

/-- `CognitiveRequest` dataclass (after `__post_init__`: a missing
`required_services` is the empty list). -/
structure CognitiveRequest where
  request_id : String
  request_type : String
  content : String
  context : List (String × ℚ) := []
  priority : Nat := 1
  complexity : ℚ := 1
  required_services : List ServiceType := []

/-- `CognitiveResponse` dataclass (after `__post_init__`: a missing `errors`
is the empty list). -/
structure CognitiveResponse where
  request_id : String
  status : String
  result : RMap
  processing_time : ℚ
  services_used : List String
  confidence : ℚ := 0
  errors : List String := []

/-- `CognitiveOrchestrator._determine_required_services`. -/
def determine_required_services (request : CognitiveRequest) : List ServiceType :=
  let required_services : List ServiceType :=
    if request.request_type = "relevance_analysis" then [.relevance]
    else if request.request_type = "wisdom_evaluation" then [.wisdom]
    else if request.request_type = "rational_analysis" then [.rationality]
    else if request.request_type = "phenomenological_processing" then [.phenomenology]
    else if request.request_type = "meaning_making" then [.meaning_making]
    else if request.request_type = "integration" then [.integration]
    else if request.request_type = "silicon_sage_advice" then [.silicon_sage]
    else if request.request_type = "comprehensive_analysis" then
      [.relevance, .wisdom, .rationality, .meaning_making, .integration]
    else [.silicon_sage]
  if request.complexity > 7/10 ∧ ServiceType.integration ∉ required_services then
    required_services ++ [.integration]
  else required_services

/-- `CognitiveOrchestrator._plan_processing_pipeline`: one load-balancer
selection per required category, skipping categories with no available
instance.  The request context passed to the load balancer carries the
`complexity` and `priority` keys (its `request_type` entry is a string no
strategy ever reads and is omitted from the numeric context). -/
def plan_processing_pipeline (lb : LoadBalancerState) (sm : ServiceManagerState)
    (request : CognitiveRequest) : List String × LoadBalancerState :=
  request.required_services.foldl
    (fun (acc : List String × LoadBalancerState) service_type =>
      let lb_context : List (String × ℚ) :=
        [("complexity", request.complexity), ("priority", (request.priority : ℚ))]
      let (sel, lb') := select_service_instance acc.2 sm service_type (some lb_context)
      match sel with
      | some instance_id => (acc.1 ++ [instance_id], lb')
      | none => (acc.1, lb'))
    ([], lb)

/-- The body of `_execute_pipeline`'s loop for one pipeline entry.  The
per-category processing capability (`_process_with_service`, an external
collaborator returning a result mapping or raising) is the parameter `proc`,
taking the category, request content, request context and the intermediate
results so far; `dur` gives the elapsed milliseconds of each successful call.
A step whose identifier is unknown to the registry is skipped; a failing step
records a 5000 ms failed sample and continues with the accumulated results
unchanged. -/
def execute_step
    (proc : ServiceType → String → List (String × ℚ) → List (String × RMap) →
       Except String RMap)
    (dur : String → ℚ) (sm : ServiceManagerState) (request : CognitiveRequest)
    (acc : RMap × List (String × RMap) × LoadBalancerState) (instance_id : String) :
    RMap × List (String × RMap) × LoadBalancerState :=
  let (result, intermediate_results, lb) := acc
  match alookup sm.services instance_id with
  | none => acc
  | some inst =>
    let service_type := inst.config.service_type
    let lb₁ := record_request_start lb instance_id
    match proc service_type request.content request.context intermediate_results with
    | .ok service_result =>
        let lb₂ := record_request_end lb₁ instance_id (dur instance_id) true
        (dict_update result service_result,
         aset intermediate_results service_type.value service_result, lb₂)
    | .error _ =>
        let lb₂ := record_request_end lb₁ instance_id 5000 false
        (result, intermediate_results, lb₂)

/-- `CognitiveOrchestrator._execute_pipeline`: fold `execute_step` over the
pipeline, returning the merged result mapping and the final load-balancer
state. -/
def execute_pipeline
    (proc : ServiceType → String → List (String × ℚ) → List (String × RMap) →
       Except String RMap)
    (dur : String → ℚ) (sm : ServiceManagerState) (lb₀ : LoadBalancerState)
    (request : CognitiveRequest) (pipeline : List String) :
    RMap × LoadBalancerState :=
  let final := pipeline.foldl (execute_step proc dur sm request) ([], [], lb₀)
  (final.1, final.2.2)

/-- `CognitiveOrchestrator.process_request` (the response path; the running
`processing_stats` counters and the `active_requests` bookkeeping carry no
data any claim reads).  `elapsed` abstracts the wall-clock processing time.
The `except` arm that would produce an `"error"` response is unreachable in
the embedding because every pipeline-step failure is already caught inside
`_execute_pipeline`; the `errors` field therefore keeps its `__post_init__`
default `[]`. -/
def process_request
    (proc : ServiceType → String → List (String × ℚ) → List (String × RMap) →
       Except String RMap)
    (dur : String → ℚ) (elapsed : ℚ) (sm : ServiceManagerState)
    (lb : LoadBalancerState) (request : CognitiveRequest) :
    CognitiveResponse × LoadBalancerState :=
  let request :=
    if request.required_services.isEmpty then
      { request with required_services := determine_required_services request }
    else request
  let (pipeline, lb₁) := plan_processing_pipeline lb sm request
  let (result, lb₂) := execute_pipeline proc dur sm lb₁ request pipeline
  ({ request_id := request.request_id
     status := "success"
     result := result
     processing_time := elapsed
     services_used := pipeline
     confidence := (alookup result "confidence").getD (8/10)
     errors := [] }, lb₂)

/-! ## Theorems -/

theorem alookup_aset {α : Type} (l : List (String × α)) (k k' : String) (v : α) :
    alookup (aset l k v) k' = if k' = k then some v else alookup l k' := by
  by_cases h : k' = k
  · subst h; simp [alookup_aset_self]
  · simp [h, alookup_aset_ne l k k' v (Ne.symm h)]

/-- C10: calling `record_request_end` with an instance identifier that has no
entry in the metrics table is a complete no-op: the whole load-balancer state,
in particular the metrics table, is returned unchanged, with no entry created
and no other instance's metrics modified. -/
theorem record_request_end_missing_id (lb : LoadBalancerState) (instance_id : String)
    (response_time : ℚ) (success : Bool)
    (h : alookup lb.metrics instance_id = none) :
    record_request_end lb instance_id response_time success = lb := by
  unfold record_request_end
  rw [h]

theorem record_request_end_missing_id_witness :
    alookup ({ strategy := .round_robin } : LoadBalancerState).metrics "inst" = none ∧
    record_request_end { strategy := .round_robin } "inst" 250 true =
      ({ strategy := .round_robin } : LoadBalancerState) :=
  ⟨rfl, record_request_end_missing_id { strategy := .round_robin } "inst" 250 true rfl⟩

/-- C9: the system-wide report's status is the worst status among the cached
reports — CRITICAL if any report is CRITICAL, else WARNING if any is WARNING —
and it is UNKNOWN exactly when every cached report is UNKNOWN, which for an
empty cache holds vacuously (the empty cache yields UNKNOWN). -/
theorem update_system_health_status (rs : List HealthReport) :
    (update_system_health rs).status =
      (if rs.any (fun r => r.status = HealthStatus.critical) then HealthStatus.critical
       else if rs.any (fun r => r.status = HealthStatus.warning) then HealthStatus.warning
       else if rs.all (fun r => r.status = HealthStatus.unknown) then HealthStatus.unknown
       else HealthStatus.healthy) := by
  by_cases he : rs.isEmpty
  · have h0 := List.isEmpty_iff.mp he
    subst h0
    simp [update_system_health]
  · have hcrit : (0 < rs.countP (fun r => r.status = HealthStatus.critical)) ↔
        rs.any (fun r => r.status = HealthStatus.critical) = true := by
      rw [List.countP_pos_iff, List.any_eq_true]
    have hwarn : (0 < rs.countP (fun r => r.status = HealthStatus.warning)) ↔
        rs.any (fun r => r.status = HealthStatus.warning) = true := by
      rw [List.countP_pos_iff, List.any_eq_true]
    have hunk : (rs.countP (fun r => r.status = HealthStatus.unknown) = rs.length) ↔
        rs.all (fun r => r.status = HealthStatus.unknown) = true := by
      rw [List.countP_eq_length, List.all_eq_true]
    simp only [update_system_health, he, Bool.false_eq_true, if_false, gt_iff_lt]
    split_ifs <;> simp_all

/-- The overall-status component of one metric block of
`_check_service_health`. -/
theorem health_check_step_overall (acc : HealthCheckAcc)
    (item : HealthMetric × String × String × String) :
    (health_check_step acc item).overall_status =
      (if evaluate_metric_status item.1 = HealthStatus.critical then HealthStatus.critical
       else if evaluate_metric_status item.1 = HealthStatus.warning ∧
                acc.overall_status ≠ HealthStatus.critical then HealthStatus.warning
       else acc.overall_status) := by
  obtain ⟨m, ci, wi, re⟩ := item
  unfold health_check_step
  dsimp only
  split_ifs <;> rfl

theorem foldl_health_critical (l : List (HealthMetric × String × String × String))
    (acc : HealthCheckAcc) (h : acc.overall_status = HealthStatus.critical) :
    (l.foldl health_check_step acc).overall_status = HealthStatus.critical := by
  induction l generalizing acc with
  | nil => simpa
  | cons x t ih =>
      rw [List.foldl_cons]
      apply ih
      rw [health_check_step_overall]
      simp [h]

theorem foldl_health_critical_of_mem (l : List (HealthMetric × String × String × String))
    (acc : HealthCheckAcc)
    (h : ∃ c ∈ l, evaluate_metric_status c.1 = HealthStatus.critical) :
    (l.foldl health_check_step acc).overall_status = HealthStatus.critical := by
  induction l generalizing acc with
  | nil => simp at h
  | cons x t ih =>
      obtain ⟨c, hc, hcrit⟩ := h
      rcases List.mem_cons.mp hc with h1 | h1
      · subst h1
        rw [List.foldl_cons]
        apply foldl_health_critical
        rw [health_check_step_overall, hcrit]
        rfl
      · exact ih _ ⟨c, h1, hcrit⟩

/-- C8: if any one of the five evaluated metrics is at or past its critical
threshold, the per-instance health check never classifies the instance as
HEALTHY (the worst-of aggregation makes the overall status CRITICAL),
regardless of the other metric values. -/
theorem check_service_health_not_healthy (th : Thresholds) (s : MetricsSnapshot)
    (h : ∃ c ∈ health_checks th s, c.1.value ≥ c.1.threshold_critical) :
    (check_service_health th s).status ≠ HealthStatus.healthy := by
  have hc : (check_service_health th s).status = HealthStatus.critical := by
    unfold check_service_health
    dsimp only
    apply foldl_health_critical_of_mem
    obtain ⟨c, hcl, hcv⟩ := h
    refine ⟨c, hcl, ?_⟩
    unfold evaluate_metric_status
    rw [if_pos hcv]
  rw [hc]
  simp

theorem check_service_health_not_healthy_witness :
    (∃ c ∈ health_checks {} { cpu_usage := 95 }, c.1.value ≥ c.1.threshold_critical) ∧
    (check_service_health {} { cpu_usage := 95 }).status ≠ HealthStatus.healthy :=
  ⟨by decide, check_service_health_not_healthy {} { cpu_usage := 95 } (by decide)⟩

/-- Iterated `record_request_end` updates on one instance's metrics entry. -/
def record_request_end_seq (m : ServiceMetrics) (calls : List (ℚ × Bool)) :
    ServiceMetrics :=
  calls.foldl (fun acc c => record_request_end_metrics acc c.1 c.2) m

theorem record_request_end_metrics_error_rate (m : ServiceMetrics) (rt : ℚ) (s : Bool) :
    (record_request_end_metrics m rt s).error_rate =
      if s then (9/10) * m.error_rate else 1/10 + (9/10) * m.error_rate := by
  cases s <;> unfold record_request_end_metrics <;> norm_num

theorem error_rate_seq_bounds (calls : List (ℚ × Bool)) (m : ServiceMetrics)
    (h : 0 ≤ m.error_rate ∧ m.error_rate < 1) :
    0 ≤ (record_request_end_seq m calls).error_rate ∧
      (record_request_end_seq m calls).error_rate < 1 := by
  induction calls generalizing m with
  | nil => simpa [record_request_end_seq]
  | cons c t ih =>
      have hstep : 0 ≤ (record_request_end_metrics m c.1 c.2).error_rate ∧
          (record_request_end_metrics m c.1 c.2).error_rate < 1 := by
        rw [record_request_end_metrics_error_rate]
        cases c.2 <;> simp <;> constructor <;> linarith [h.1, h.2]
      simpa [record_request_end_seq, List.foldl_cons] using ih _ hstep

/-- C7: starting from error rate 0, after any sequence of `record_request_end`
updates the smoothed error rate lies in [0, 1) — never exceeding 1 and never
below 0 — and from any such reachable state a failed request strictly
increases it while a success strictly decreases it whenever it is positive. -/
theorem error_rate_evolution (calls : List (ℚ × Bool)) (m : ServiceMetrics)
    (h0 : m.error_rate = 0) (response_time : ℚ) :
    0 ≤ (record_request_end_seq m calls).error_rate ∧
    (record_request_end_seq m calls).error_rate < 1 ∧
    (record_request_end_seq m calls).error_rate <
      (record_request_end_metrics (record_request_end_seq m calls)
        response_time false).error_rate ∧
    (0 < (record_request_end_seq m calls).error_rate →
      (record_request_end_metrics (record_request_end_seq m calls)
        response_time true).error_rate <
        (record_request_end_seq m calls).error_rate) := by
  have hb := error_rate_seq_bounds calls m ⟨by rw [h0], by rw [h0]; norm_num⟩
  refine ⟨hb.1, hb.2, ?_, ?_⟩
  · rw [record_request_end_metrics_error_rate]
    simp only [Bool.false_eq_true, if_false]
    linarith [hb.2]
  · intro hpos
    rw [record_request_end_metrics_error_rate]
    simp only [if_true]
    linarith

theorem error_rate_evolution_witness :
    ({ instance_id := "a" } : ServiceMetrics).error_rate = 0 ∧
    (0 ≤ (record_request_end_seq { instance_id := "a" } [(100, false), (200, true)]).error_rate ∧
     (record_request_end_seq { instance_id := "a" } [(100, false), (200, true)]).error_rate < 1 ∧
     (record_request_end_seq { instance_id := "a" } [(100, false), (200, true)]).error_rate <
       (record_request_end_metrics
         (record_request_end_seq { instance_id := "a" } [(100, false), (200, true)]) 50
         false).error_rate ∧
     (0 < (record_request_end_seq { instance_id := "a" } [(100, false), (200, true)]).error_rate →
       (record_request_end_metrics
         (record_request_end_seq { instance_id := "a" } [(100, false), (200, true)]) 50
         true).error_rate <
         (record_request_end_seq { instance_id := "a" } [(100, false), (200, true)]).error_rate)) :=
  ⟨rfl, error_rate_evolution [(100, false), (200, true)] { instance_id := "a" } rfl 50⟩

/-- The observable connection count of an instance: the `current_connections`
of its metrics entry, 0 when it has none. -/
def connections_of (lb : LoadBalancerState) (instance_id : String) : Int :=
  ((alookup lb.metrics instance_id).map (fun m => m.current_connections)).getD 0

/-- One request-lifecycle event against the load balancer. -/
inductive ReqEvent where
  | start (instance_id : String)
  | finish (instance_id : String) (response_time : ℚ) (success : Bool)

/-- Apply one request-lifecycle event. -/
def apply_req_event (lb : LoadBalancerState) : ReqEvent → LoadBalancerState
  | .start instance_id => record_request_start lb instance_id
  | .finish instance_id response_time success =>
      record_request_end lb instance_id response_time success

/-- Apply a sequence of request-lifecycle events. -/
def apply_req_events (lb : LoadBalancerState) (evs : List ReqEvent) : LoadBalancerState :=
  evs.foldl apply_req_event lb

theorem connections_of_eq_getD (lb : LoadBalancerState) (iid : String) :
    connections_of lb iid =
      ((alookup lb.metrics iid).getD { instance_id := iid }).current_connections := by
  cases h : alookup lb.metrics iid <;> simp [connections_of, h]

theorem record_request_end_metrics_connections (m : ServiceMetrics) (rt : ℚ) (s : Bool) :
    (record_request_end_metrics m rt s).current_connections =
      max 0 (m.current_connections - 1) := by
  unfold record_request_end_metrics
  rfl

theorem pair_restores_core (lb : LoadBalancerState) (iid : String) (rt : ℚ) (s : Bool)
    (h : 0 ≤ connections_of lb iid) :
    connections_of (record_request_end (record_request_start lb iid) iid rt s) iid =
      connections_of lb iid := by
  cases hl : alookup lb.metrics iid with
  | none =>
      simp [connections_of, record_request_start, record_request_end, hl,
            alookup_aset_self, record_request_end_metrics_connections]
  | some m =>
      have hm : 0 ≤ m.current_connections := by
        simpa [connections_of, hl] using h
      simp [connections_of, record_request_start, record_request_end, hl,
            alookup_aset_self, record_request_end_metrics_connections]
      omega

theorem conn_nonneg_step (lb : LoadBalancerState) (e : ReqEvent)
    (h : ∀ id, 0 ≤ connections_of lb id) :
    ∀ id, 0 ≤ connections_of (apply_req_event lb e) id := by
  intro id
  cases e with
  | start sid =>
      show 0 ≤ connections_of (record_request_start lb sid) id
      by_cases hid : id = sid
      · subst hid
        cases hl : alookup lb.metrics id with
        | none => simp [connections_of, record_request_start, hl, alookup_aset_self]
        | some m =>
            have hm : 0 ≤ m.current_connections := by
              simpa [connections_of, hl] using h id
            simp [connections_of, record_request_start, hl, alookup_aset_self]
            omega
      · have hfr : alookup (record_request_start lb sid).metrics id =
            alookup lb.metrics id := by
          simp [record_request_start, alookup_aset, hid]
        simpa [connections_of, hfr] using h id
  | finish sid rt s =>
      show 0 ≤ connections_of (record_request_end lb sid rt s) id
      cases hl : alookup lb.metrics sid with
      | none =>
          simp only [record_request_end, hl]
          exact h id
      | some m =>
          by_cases hid : id = sid
          · subst hid
            simp [connections_of, record_request_end, hl, alookup_aset_self,
                  record_request_end_metrics_connections]
          · have hfr : alookup (record_request_end lb sid rt s).metrics id =
                alookup lb.metrics id := by
              simp [record_request_end, hl, alookup_aset, hid]
            simpa [connections_of, hfr] using h id

theorem conn_nonneg_events (evs : List ReqEvent) (lb : LoadBalancerState)
    (h : ∀ id, 0 ≤ connections_of lb id) :
    ∀ id, 0 ≤ connections_of (apply_req_events lb evs) id := by
  induction evs generalizing lb with
  | nil => simpa [apply_req_events]
  | cons e t ih =>
      simpa [apply_req_events, List.foldl_cons] using
        ih (apply_req_event lb e) (conn_nonneg_step lb e h)

/-- C6 (amended): a `record_request_start`/`record_request_end` pair restores
an instance's connection count whenever that count was nonnegative beforehand
(true of every state these calls can reach), and from a table with no
negative counts no sequence of start/end events ever drives any instance's
count negative.  The unrestricted claim fails on tables already holding a
negative count — see the counterexample. -/
theorem record_request_pair_restores (lb : LoadBalancerState) (instance_id : String)
    (response_time : ℚ) (success : Bool)
    (h : 0 ≤ connections_of lb instance_id) :
    connections_of
      (record_request_end (record_request_start lb instance_id) instance_id
        response_time success) instance_id = connections_of lb instance_id ∧
    (∀ evs : List ReqEvent, (∀ id, 0 ≤ connections_of lb id) →
      ∀ id, 0 ≤ connections_of (apply_req_events lb evs) id) :=
  ⟨pair_restores_core lb instance_id response_time success h,
   fun evs hall => conn_nonneg_events evs lb hall⟩

theorem record_request_pair_restores_witness :
    0 ≤ connections_of { strategy := .round_robin } "a" ∧
    (connections_of
      (record_request_end (record_request_start { strategy := .round_robin } "a") "a"
        80 true) "a" = connections_of { strategy := .round_robin } "a" ∧
     (∀ evs : List ReqEvent,
        (∀ id, 0 ≤ connections_of ({ strategy := .round_robin } : LoadBalancerState) id) →
        ∀ id, 0 ≤ connections_of (apply_req_events { strategy := .round_robin } evs) id)) :=
  ⟨by decide, record_request_pair_restores { strategy := .round_robin } "a" 80 true (by decide)⟩

/-- C6 counterexample: on a metrics table whose entry already holds the
(otherwise unreachable) connection count −1, the start/end pair does *not*
restore the prior value — it clamps to 0 — so the claim as stated over every
metrics-table state is false. -/
theorem record_request_pair_counterexample :
    connections_of
      (record_request_end
        (record_request_start
          { strategy := .round_robin,
            metrics := [("a", { instance_id := "a", current_connections := -1 })] } "a")
        "a" 100 true) "a" ≠
    connections_of
      { strategy := .round_robin,
        metrics := [("a", { instance_id := "a", current_connections := -1 })] } "a" := by
  decide

/-- C3: under least-response-time, an instance whose metrics entry still has
the zero-seeded average response time (no completed samples yet) is compared
at the 100 ms default rather than at 0; in particular, with two healthy
instances, one averaging 50 ms and one with no samples, selection returns the
50 ms instance — in either list order. -/
theorem least_response_time_default_100
    (sm : ServiceManagerState) (lb : LoadBalancerState) (t : ServiceType)
    (i1 i2 : ServiceInstance) (m1 m2 : ServiceMetrics)
    (hstrat : lb.strategy = .least_response_time)
    (hm1 : alookup lb.metrics i1.config.instance_id = some m1)
    (hm2 : alookup lb.metrics i2.config.instance_id = some m2)
    (h50 : m1.average_response_time = 50)
    (h0 : m2.average_response_time = 0) :
    effective_response_time lb.metrics i2.config.instance_id = some 100 ∧
    (get_healthy_services sm t = [i1, i2] →
      (select_service_instance lb sm t none).1 = some i1.config.instance_id) ∧
    (get_healthy_services sm t = [i2, i1] →
      (select_service_instance lb sm t none).1 = some i1.config.instance_id) := by
  refine ⟨by simp [effective_response_time, hm2, h0], ?_, ?_⟩ <;> intro hh <;>
    norm_num [select_service_instance, hh, hstrat, least_response_time_select,
      effective_response_time, lt_inf, hm1, hm2, h50, h0]

/-- A RUNNING, healthy fixture instance. -/
def inst_fixture (id : String) (t : ServiceType) : ServiceInstance :=
  { config := { service_type := t, instance_id := id }
    status := .running
    health_status := "healthy" }

/-- Registry fixture holding two healthy relevance instances. -/
def sm_two : ServiceManagerState :=
  { services := [("i1", inst_fixture "i1" .relevance), ("i2", inst_fixture "i2" .relevance)]
    service_registry := fun t => if t = .relevance then ["i1", "i2"] else [] }

/-- Least-response-time balancer fixture: `i1` averages 50 ms, `i2` has an
entry with no completed samples. -/
def lb_lrt : LoadBalancerState :=
  { strategy := .least_response_time
    metrics := [("i1", { instance_id := "i1", average_response_time := 50 }),
                ("i2", { instance_id := "i2" })] }

theorem least_response_time_default_100_witness :
    (lb_lrt.strategy = .least_response_time ∧
     get_healthy_services sm_two .relevance =
       [inst_fixture "i1" .relevance, inst_fixture "i2" .relevance]) ∧
    effective_response_time lb_lrt.metrics "i2" = some 100 ∧
    (select_service_instance lb_lrt sm_two .relevance none).1 = some "i1" :=
  ⟨⟨rfl, by decide⟩,
   let h := least_response_time_default_100 sm_two lb_lrt .relevance
     (inst_fixture "i1" .relevance) (inst_fixture "i2" .relevance)
     { instance_id := "i1", average_response_time := 50 } { instance_id := "i2" }
     rfl rfl rfl rfl rfl
   ⟨h.1, h.2.1 (by decide)⟩⟩

/-- C1 counterexample: registering a second config under the already-taken
identifier "a" is *not* rejected — the per-category registry list gains a
second "a" entry and the stored instance is replaced — refuting the claim
that a duplicate registration leaves registry and stored instance unchanged. -/
theorem register_service_duplicate_counterexample :
    ((register_service
        (register_service {}
          { service_type := .relevance, instance_id := "a", port := 8100 }).2
        { service_type := .relevance, instance_id := "a", port := 8200 }).2.service_registry
      ServiceType.relevance = ["a", "a"]) ∧
    (alookup
        (register_service
          (register_service {}
            { service_type := .relevance, instance_id := "a", port := 8100 }).2
          { service_type := .relevance, instance_id := "a", port := 8200 }).2.services "a" ≠
      alookup
        (register_service {}
          { service_type := .relevance, instance_id := "a", port := 8100 }).2.services "a") := by
  exact ⟨by decide, by decide⟩

/-- C1 (amended): `register_service` never rejects a registration.  It
unconditionally stores a fresh instance (status STOPPED) under the config's
identifier — overwriting any previously stored instance with that identifier
— and appends the identifier to the config's category list, so a duplicate
identifier yields a second entry there.  Other identifiers and other
categories are untouched; a fresh identifier is stored as STOPPED exactly as
the claim says. -/
theorem register_service_spec (st : ServiceManagerState) (config : ServiceConfig) :
    (register_service st config).1 = config.instance_id ∧
    (∀ id, alookup (register_service st config).2.services id =
      (if id = config.instance_id then some { config := config }
       else alookup st.services id)) ∧
    (∀ t, (register_service st config).2.service_registry t =
      (if t = config.service_type then st.service_registry t ++ [config.instance_id]
       else st.service_registry t)) ∧
    ((alookup (register_service st config).2.services config.instance_id).map
        (fun i => i.status) = some ServiceStatus.stopped) := by
  refine ⟨rfl, fun id => ?_, fun t => rfl, ?_⟩
  · simp [register_service, alookup_aset]
  · simp [register_service, alookup_aset_self]

/-- C4: starting an instance one of whose declared prerequisite categories
has zero RUNNING+healthy instances fails: `start_service` returns false with
the manager state completely unchanged — so the instance is still STOPPED
with its error counter exactly as before — and delivers no status-change
notification (it never enters STARTING). -/
theorem start_service_dependency_unmet (pyhash : String → Nat) (now : ℚ)
    (st : ServiceManagerState) (instance_id : String) (inst : ServiceInstance)
    (dep : ServiceType)
    (hfound : alookup st.services instance_id = some inst)
    (hstopped : inst.status = ServiceStatus.stopped)
    (hdep : dep ∈ inst.config.dependencies)
    (hempty : get_healthy_services st dep = []) :
    start_service pyhash now st instance_id = (false, st, []) ∧
    (alookup st.services instance_id).map (fun i => i.status) =
      some ServiceStatus.stopped ∧
    (alookup st.services instance_id).map (fun i => i.error_count) =
      some inst.error_count := by
  have hch : ¬ (check_dependencies st inst.config = true) := by
    intro hall
    unfold check_dependencies at hall
    rw [List.all_eq_true] at hall
    have := hall dep hdep
    rw [hempty] at this
    simp at this
  refine ⟨?_, by simp [hfound, hstopped], by simp [hfound]⟩
  unfold start_service
  rw [hfound]
  simp [hstopped, hch]

/-- Fixture: a stopped instance whose only dependency category has no
healthy instance registered. -/
def inst_dep : ServiceInstance :=
  { config := { service_type := .silicon_sage, instance_id := "s",
                dependencies := [.wisdom] } }

/-- Registry fixture holding only the dependent instance. -/
def sm_dep : ServiceManagerState :=
  { services := [("s", inst_dep)]
    service_registry := fun t => if t = .silicon_sage then ["s"] else [] }

theorem start_service_dependency_unmet_witness :
    (alookup sm_dep.services "s" = some inst_dep ∧
     inst_dep.status = ServiceStatus.stopped ∧
     ServiceType.wisdom ∈ inst_dep.config.dependencies ∧
     get_healthy_services sm_dep .wisdom = []) ∧
    (start_service (fun _ => 0) 0 sm_dep "s" = (false, sm_dep, []) ∧
     (alookup sm_dep.services "s").map (fun i => i.status) =
       some ServiceStatus.stopped ∧
     (alookup sm_dep.services "s").map (fun i => i.error_count) =
       some inst_dep.error_count) :=
  ⟨⟨rfl, rfl, by decide, by decide⟩,
   start_service_dependency_unmet (fun _ => 0) 0 sm_dep "s" inst_dep .wisdom
     rfl rfl (by decide) (by decide)⟩

/-- The results of `n` consecutive `select_service_instance` calls for one
category, threading the load-balancer state (the registry is not mutated by
selection). -/
def select_run (sm : ServiceManagerState) (t : ServiceType) :
    LoadBalancerState → Nat → List (Option String)
  | _, 0 => []
  | lb, n + 1 =>
      (select_service_instance lb sm t none).1 ::
        select_run sm t (select_service_instance lb sm t none).2 n

theorem select_run_round_robin (sm : ServiceManagerState) (t : ServiceType)
    (hne : get_healthy_services sm t ≠ []) :
    ∀ (n : Nat) (lb : LoadBalancerState), lb.strategy = .round_robin →
      select_run sm t lb n = (List.range n).map (fun i =>
        ((get_healthy_services sm t).map (fun s => s.config.instance_id))[
          (lb.round_robin_counters t + i) % (get_healthy_services sm t).length]?) := by
  intro n
  induction n with
  | zero => intro lb _; simp [select_run]
  | succ n ih =>
      intro lb hstrat
      rw [select_run]
      rw [List.range_succ_eq_map, List.map_cons, List.map_map]
      by_cases hk1 : (get_healthy_services sm t).length = 1
      · obtain ⟨x, hx⟩ := List.length_eq_one.mp hk1
        have hsel : select_service_instance lb sm t none =
            (some x.config.instance_id, lb) := by
          simp [select_service_instance, hx]
        rw [hsel]
        simp only [List.cons.injEq]
        constructor
        · simp [hx, Nat.mod_one]
        · rw [ih lb hstrat]
          congr 1
          funext i
          simp [hx, Nat.mod_one]
      · have hie : (get_healthy_services sm t).isEmpty = false := by
          simpa [List.isEmpty_iff] using hne
        have hsel : select_service_instance lb sm t none =
            (((get_healthy_services sm t).map (fun s => s.config.instance_id))[
               lb.round_robin_counters t % (get_healthy_services sm t).length]?,
             { lb with
                round_robin_counters := fun t' =>
                  if t' = t then
                    (lb.round_robin_counters t + 1) % (get_healthy_services sm t).length
                  else lb.round_robin_counters t' }) := by
          simp [select_service_instance, hie, hk1, hstrat, round_robin_select,
            List.getElem?_map]
        rw [hsel]
        simp only [List.cons.injEq]
        constructor
        · simp
        · rw [ih { lb with round_robin_counters := fun t' =>
              if t' = t then
                (lb.round_robin_counters t + 1) % (get_healthy_services sm t).length
              else lb.round_robin_counters t' } hstrat]
          congr 1
          funext i
          simp only [eq_self_iff_true, if_true, Function.comp_apply]
          have hmod : ((lb.round_robin_counters t + 1) % (get_healthy_services sm t).length + i) %
              (get_healthy_services sm t).length =
              (lb.round_robin_counters t + Nat.succ i) % (get_healthy_services sm t).length := by
            rw [Nat.mod_add_mod]
            congr 1
            omega
          rw [hmod]

theorem countP_eq_one_of_nodup {α : Type} [DecidableEq α] (l : List α) (x : α)
    (hn : l.Nodup) (hx : x ∈ l) : l.countP (fun y => y = x) = 1 := by
  induction l with
  | nil => simp at hx
  | cons a tl ih =>
      rw [List.countP_cons]
      rcases List.mem_cons.mp hx with h1 | h1
      · subst h1
        have hnot : ∀ y ∈ tl, ¬ ((fun y => decide (y = x)) y = true) := by
          intro y hy
          simp only [decide_eq_true_eq]
          intro he
          subst he
          exact (List.nodup_cons.mp hn).1 hy
        rw [List.countP_eq_zero.mpr hnot]
        simp
      · have hne' : a ≠ x := by
          intro he
          subst he
          exact (List.nodup_cons.mp hn).1 h1
        rw [ih (List.nodup_cons.mp hn).2 h1]
        simp [hne']

theorem range_map_mod_eq_rotate {α : Type} (l : List α) (c : Nat) (hl : l ≠ []) :
    (List.range l.length).map (fun i => l[(c + i) % l.length]?) =
      (l.rotate (c % l.length)).map some := by
  have hk : 0 < l.length := List.length_pos.mpr hl
  apply List.ext_getElem?
  intro j
  by_cases hj : j < l.length
  · have hlt : (c + j) % l.length < l.length := Nat.mod_lt _ hk
    rw [List.getElem?_map, List.getElem?_range hj, List.getElem?_map,
      List.getElem?_rotate hj, Nat.add_mod_mod, Nat.add_comm j c]
    simp [List.getElem?_eq_getElem hlt]
  · have hj' : l.length ≤ j := le_of_not_lt hj
    have h1 : ((List.range l.length).map
        (fun i => l[(c + i) % l.length]?)).length ≤ j := by simpa using hj'
    have h2 : ((l.rotate (c % l.length)).map some).length ≤ j := by
      simpa [List.length_rotate] using hj'
    rw [List.getElem?_eq_none h1, List.getElem?_eq_none h2]

/-- C5: under round-robin over a fixed healthy list, successive selections
follow the counter formula; a window of `k` consecutive calls (`k` the list
length, any `k ≥ 1`) returns exactly the identifier list rotated to the
current counter — so with distinct identifiers each is returned exactly once
per window, in list order — and the pattern repeats with period `k` over any
longer run. -/
theorem round_robin_cycle (sm : ServiceManagerState) (t : ServiceType)
    (lb : LoadBalancerState)
    (hstrat : lb.strategy = .round_robin)
    (hne : get_healthy_services sm t ≠ []) :
    (∀ n, select_run sm t lb n = (List.range n).map (fun i =>
        ((get_healthy_services sm t).map (fun s => s.config.instance_id))[
          (lb.round_robin_counters t + i) % (get_healthy_services sm t).length]?)) ∧
    select_run sm t lb (get_healthy_services sm t).length =
      (((get_healthy_services sm t).map (fun s => s.config.instance_id)).rotate
        (lb.round_robin_counters t % (get_healthy_services sm t).length)).map some ∧
    (((get_healthy_services sm t).map (fun s => s.config.instance_id)).Nodup →
      ∀ x ∈ (get_healthy_services sm t).map (fun s => s.config.instance_id),
        (select_run sm t lb (get_healthy_services sm t).length).countP
          (fun r => r = some x) = 1) ∧
    (∀ n i, i + (get_healthy_services sm t).length < n →
      (select_run sm t lb n)[i + (get_healthy_services sm t).length]? =
        (select_run sm t lb n)[i]?) := by
  have hids_ne : (get_healthy_services sm t).map (fun s => s.config.instance_id) ≠ [] := by
    simpa using hne
  have hlen : ((get_healthy_services sm t).map (fun s => s.config.instance_id)).length =
      (get_healthy_services sm t).length := List.length_map _ _
  have hform := select_run_round_robin sm t hne
  have hwin : select_run sm t lb (get_healthy_services sm t).length =
      (((get_healthy_services sm t).map (fun s => s.config.instance_id)).rotate
        (lb.round_robin_counters t % (get_healthy_services sm t).length)).map some := by
    rw [hform _ lb hstrat, ← hlen]
    exact range_map_mod_eq_rotate _ _ hids_ne
  refine ⟨fun n => hform n lb hstrat, hwin, ?_, ?_⟩
  · intro hnodup x hx
    rw [hwin, List.countP_map]
    have hcp : (((get_healthy_services sm t).map (fun s => s.config.instance_id)).rotate
          (lb.round_robin_counters t % (get_healthy_services sm t).length)).countP
        ((fun r => decide (r = some x)) ∘ some) =
        (((get_healthy_services sm t).map (fun s => s.config.instance_id)).rotate
          (lb.round_robin_counters t % (get_healthy_services sm t).length)).countP
        (fun y => y = x) := by
      apply List.countP_congr
      intro a _
      simp [Function.comp]
    rw [hcp, (List.rotate_perm _ _).countP_eq]
    exact countP_eq_one_of_nodup _ x hnodup hx
  · intro n i hin
    have hi : i < n := by omega
    rw [hform n lb hstrat]
    rw [List.getElem?_map, List.getElem?_map, List.getElem?_range hin,
      List.getElem?_range hi]
    simp only [Option.map_some']
    congr 1
    rw [← Nat.add_assoc, Nat.add_mod_right]

/-- Round-robin balancer fixture with fresh counters. -/
def lb_rr : LoadBalancerState := { strategy := .round_robin }

theorem round_robin_cycle_witness :
    (lb_rr.strategy = .round_robin ∧ get_healthy_services sm_two .relevance ≠ []) ∧
    ((∀ n, select_run sm_two .relevance lb_rr n = (List.range n).map (fun i =>
        ((get_healthy_services sm_two .relevance).map (fun s => s.config.instance_id))[
          (lb_rr.round_robin_counters .relevance + i) %
            (get_healthy_services sm_two .relevance).length]?)) ∧
     select_run sm_two .relevance lb_rr (get_healthy_services sm_two .relevance).length =
       (((get_healthy_services sm_two .relevance).map (fun s => s.config.instance_id)).rotate
         (lb_rr.round_robin_counters .relevance %
           (get_healthy_services sm_two .relevance).length)).map some ∧
     (((get_healthy_services sm_two .relevance).map (fun s => s.config.instance_id)).Nodup →
       ∀ x ∈ (get_healthy_services sm_two .relevance).map (fun s => s.config.instance_id),
         (select_run sm_two .relevance lb_rr
           (get_healthy_services sm_two .relevance).length).countP
           (fun r => r = some x) = 1) ∧
     (∀ n i, i + (get_healthy_services sm_two .relevance).length < n →
       (select_run sm_two .relevance lb_rr n)[i +
           (get_healthy_services sm_two .relevance).length]? =
         (select_run sm_two .relevance lb_rr n)[i]?)) :=
  ⟨⟨rfl, by decide⟩, round_robin_cycle sm_two .relevance lb_rr rfl (by decide)⟩

theorem alookup_record_request_start_ne (lb : LoadBalancerState) (id x : String)
    (h : x ≠ id) :
    alookup (record_request_start lb id).metrics x = alookup lb.metrics x := by
  simp [record_request_start, alookup_aset, h]

theorem alookup_record_request_end_ne (lb : LoadBalancerState) (id x : String)
    (rt : ℚ) (s : Bool) (h : x ≠ id) :
    alookup (record_request_end lb id rt s).metrics x = alookup lb.metrics x := by
  cases hl : alookup lb.metrics id <;> simp [record_request_end, hl, alookup_aset, h]

theorem failed_pair_entry_congr (lb₁ lb₂ : LoadBalancerState) (f : String)
    (h : alookup lb₁.metrics f = alookup lb₂.metrics f) :
    alookup (record_request_end (record_request_start lb₁ f) f 5000 false).metrics f =
      alookup (record_request_end (record_request_start lb₂ f) f 5000 false).metrics f := by
  simp [record_request_start, record_request_end, alookup_aset_self, h]

/-- Fold `dict.update` over a list of result mappings, as the pipeline loop
does with its successful step results. -/
def merge_results (base : RMap) (maps : List RMap) : RMap :=
  maps.foldl dict_update base

theorem execute_fold_spec
    (proc : ServiceType → String → List (String × ℚ) → List (String × RMap) →
       Except String RMap)
    (dur : String → ℚ) (sm : ServiceManagerState) (request : CognitiveRequest)
    (f emsg : String) (res : String → RMap) :
    ∀ (P : List String), P.Nodup →
    (∀ id ∈ P, ∃ inst, alookup sm.services id = some inst ∧
        ∀ inter, proc inst.config.service_type request.content request.context inter =
          (if id = f then Except.error emsg else Except.ok (res id))) →
    ∀ (result : RMap) (inter : List (String × RMap)) (lb : LoadBalancerState),
      (P.foldl (execute_step proc dur sm request) (result, inter, lb)).1 =
        merge_results result ((P.filter (fun id => id ≠ f)).map res) ∧
      (f ∈ P →
        alookup (P.foldl (execute_step proc dur sm request)
            (result, inter, lb)).2.2.metrics f =
          alookup (record_request_end (record_request_start lb f) f 5000 false).metrics f) ∧
      (f ∉ P →
        alookup (P.foldl (execute_step proc dur sm request)
            (result, inter, lb)).2.2.metrics f = alookup lb.metrics f) := by
  intro P
  induction P with
  | nil =>
      intro _ _ result inter lb
      exact ⟨by simp [merge_results], fun h => by simp at h, fun _ => by simp⟩
  | cons id tl ih =>
      intro hnodup hres result inter lb
      obtain ⟨inst, hinst, hproc⟩ := hres id (List.mem_cons_self id tl)
      have hnd := List.nodup_cons.mp hnodup
      have hres' : ∀ id' ∈ tl, ∃ inst', alookup sm.services id' = some inst' ∧
          ∀ inter', proc inst'.config.service_type request.content request.context inter' =
            (if id' = f then Except.error emsg else Except.ok (res id')) :=
        fun id' h' => hres id' (List.mem_cons_of_mem _ h')
      rw [List.foldl_cons]
      by_cases hif : id = f
      · subst hif
        have hstep : execute_step proc dur sm request (result, inter, lb) id =
            (result, inter, record_request_end (record_request_start lb id) id 5000 false) := by
          simp [execute_step, hinst, hproc]
        rw [hstep]
        have IH := ih hnd.2 hres' result inter
          (record_request_end (record_request_start lb id) id 5000 false)
        refine ⟨?_, fun _ => ?_, fun hmem => absurd (List.mem_cons_self id tl) hmem⟩
        · rw [IH.1]
          simp [List.filter_cons]
        · rw [IH.2.2 hnd.1]
      · have hstep : execute_step proc dur sm request (result, inter, lb) id =
            (dict_update result (res id),
             aset inter inst.config.service_type.value (res id),
             record_request_end (record_request_start lb id) id (dur id) true) := by
          simp [execute_step, hinst, hproc, hif]
        rw [hstep]
        have IH := ih hnd.2 hres' (dict_update result (res id))
          (aset inter inst.config.service_type.value (res id))
          (record_request_end (record_request_start lb id) id (dur id) true)
        refine ⟨?_, ?_, ?_⟩
        · rw [IH.1]
          simp [merge_results, List.filter_cons, hif]
        · intro hfm
          have hftl : f ∈ tl := by
            rcases List.mem_cons.mp hfm with h | h
            · exact absurd h.symm hif
            · exact h
          rw [IH.2.1 hftl]
          apply failed_pair_entry_congr
          rw [alookup_record_request_end_ne _ _ _ _ _ (Ne.symm hif),
            alookup_record_request_start_ne _ _ _ (Ne.symm hif)]
        · intro hnf
          have hnid : f ∉ tl := fun h => hnf (List.mem_cons_of_mem _ h)
          rw [IH.2.2 hnid, alookup_record_request_end_ne _ _ _ _ _ (Ne.symm hif),
            alookup_record_request_start_ne _ _ _ (Ne.symm hif)]

/-- C2 (amended): when the planned pipeline resolves every identifier and
exactly one step's processing call fails while the others succeed, the
response still has status "success", its result is the merge of the
successful steps' mappings in pipeline order (the failure aborts nothing),
and the failing step is recorded against its instance as a 5000 ms failed
sample — but the response's `errors` list is empty, not non-empty: step
failures are only logged, never surfaced in the response. -/
theorem process_request_partial_failure
    (proc : ServiceType → String → List (String × ℚ) → List (String × RMap) →
       Except String RMap)
    (dur : String → ℚ) (elapsed : ℚ) (sm : ServiceManagerState)
    (lb : LoadBalancerState) (request : CognitiveRequest)
    (P : List String) (lb₁ : LoadBalancerState) (f emsg : String) (res : String → RMap)
    (hreq : request.required_services ≠ [])
    (hplan : plan_processing_pipeline lb sm request = (P, lb₁))
    (hf : f ∈ P) (hnodup : P.Nodup)
    (hres : ∀ id ∈ P, ∃ inst, alookup sm.services id = some inst ∧
        ∀ inter, proc inst.config.service_type request.content request.context inter =
          (if id = f then Except.error emsg else Except.ok (res id))) :
    (process_request proc dur elapsed sm lb request).1.status = "success" ∧
    (process_request proc dur elapsed sm lb request).1.errors = [] ∧
    (process_request proc dur elapsed sm lb request).1.services_used = P ∧
    (process_request proc dur elapsed sm lb request).1.result =
      merge_results [] ((P.filter (fun id => id ≠ f)).map res) ∧
    alookup (process_request proc dur elapsed sm lb request).2.metrics f =
      alookup (record_request_end (record_request_start lb₁ f) f 5000 false).metrics f := by
  have hie : request.required_services.isEmpty = false := by
    simpa [List.isEmpty_iff] using hreq
  have hspec := execute_fold_spec proc dur sm request f emsg res P hnodup hres [] [] lb₁
  simp only [process_request, hie, Bool.false_eq_true, if_false, hplan,
    execute_pipeline]
  exact ⟨trivial, trivial, trivial, hspec.1, hspec.2.1 hf⟩

/-- Registry fixture with one healthy instance in each of two categories. -/
def sm_pipe : ServiceManagerState :=
  { services := [("r1", inst_fixture "r1" .relevance), ("w1", inst_fixture "w1" .wisdom)]
    service_registry := fun t =>
      if t = .relevance then ["r1"] else if t = .wisdom then ["w1"] else [] }

/-- A two-category request fixture. -/
def req_pipe : CognitiveRequest :=
  { request_id := "req-1", request_type := "custom", content := "hello"
    required_services := [.relevance, .wisdom] }

/-- Processing-capability fixture: the wisdom step raises, every other step
returns one binding. -/
def proc_fail_wisdom : ServiceType → String → List (String × ℚ) →
    List (String × RMap) → Except String RMap :=
  fun t _ _ _ =>
    match t with
    | .wisdom => .error "boom"
    | _ => .ok [("a", 1)]

/-- C2 counterexample: a concrete two-step pipeline whose wisdom step fails
yields a "success" response whose `errors` list is *empty*, refuting the
claim that the response carries a non-empty error list. -/
theorem process_request_errors_empty_counterexample :
    (process_request proc_fail_wisdom (fun _ => 10) 1 sm_pipe
      { strategy := .round_robin } req_pipe).1.status = "success" ∧
    (process_request proc_fail_wisdom (fun _ => 10) 1 sm_pipe
      { strategy := .round_robin } req_pipe).1.errors = [] := by
  exact ⟨rfl, rfl⟩

theorem process_request_partial_failure_witness :
    (req_pipe.required_services ≠ [] ∧
     plan_processing_pipeline { strategy := .round_robin } sm_pipe req_pipe =
       (["r1", "w1"], { strategy := .round_robin }) ∧
     "w1" ∈ ["r1", "w1"] ∧
     (["r1", "w1"] : List String).Nodup ∧
     (∀ id ∈ ["r1", "w1"], ∃ inst, alookup sm_pipe.services id = some inst ∧
        ∀ inter, proc_fail_wisdom inst.config.service_type req_pipe.content
            req_pipe.context inter =
          (if id = "w1" then Except.error "boom"
           else Except.ok ((fun _ => [("a", 1)] : String → RMap) id)))) ∧
    ((process_request proc_fail_wisdom (fun _ => 10) 1 sm_pipe
        { strategy := .round_robin } req_pipe).1.status = "success" ∧
     (process_request proc_fail_wisdom (fun _ => 10) 1 sm_pipe
        { strategy := .round_robin } req_pipe).1.errors = [] ∧
     (process_request proc_fail_wisdom (fun _ => 10) 1 sm_pipe
        { strategy := .round_robin } req_pipe).1.services_used = ["r1", "w1"] ∧
     (process_request proc_fail_wisdom (fun _ => 10) 1 sm_pipe
        { strategy := .round_robin } req_pipe).1.result =
       merge_results []
         (((["r1", "w1"] : List String).filter (fun id => id ≠ "w1")).map
           (fun _ => [("a", 1)])) ∧
     alookup (process_request proc_fail_wisdom (fun _ => 10) 1 sm_pipe
         { strategy := .round_robin } req_pipe).2.metrics "w1" =
       alookup (record_request_end
         (record_request_start { strategy := .round_robin } "w1") "w1" 5000
         false).metrics "w1") :=
  ⟨⟨by decide, rfl, by decide, by decide, by
      intro id hid
      fin_cases hid
      · exact ⟨inst_fixture "r1" .relevance, rfl, fun _ => rfl⟩
      · exact ⟨inst_fixture "w1" .wisdom, rfl, fun _ => rfl⟩⟩,
   process_request_partial_failure proc_fail_wisdom (fun _ => 10) 1 sm_pipe
     { strategy := .round_robin } req_pipe ["r1", "w1"] { strategy := .round_robin }
     "w1" "boom" (fun _ => [("a", 1)]) (by decide) rfl (by decide) (by decide)
     (by
      intro id hid
      fin_cases hid
      · exact ⟨inst_fixture "r1" .relevance, rfl, fun _ => rfl⟩
      · exact ⟨inst_fixture "w1" .wisdom, rfl, fun _ => rfl⟩)⟩

end VmDaemon
